import Mathlib

/-!
Shallow embedding of the cross-domain synergy orchestrator's configuration
layer (`src/config.py`) and dual-mode persistence manager
(`src/firebase_manager.py`).

Conventions of the embedding:
* Python `int` is `Int` (unbounded), Python `float` is `ℚ` (the program only
  parses decimal literals and compares them against 0 and 1; IEEE special
  values `inf`/`nan` and rounding at the 17th significant digit are outside
  the model's scope).
* The process environment is an association list `Env`; `os.getenv(k, d)`
  is `osGetenv`.
* A raised Python exception is the `.error` branch of `Except`.  The
  `ValueError` raised by `int()`/`float()` on a non-coercible string is the
  realization of the spec's `ConfigParseError` taxonomy entry and is named
  accordingly.
* Logging is modelled by returning the logged message (an `Option String`)
  alongside the boolean result.
-/

/-- The named-override source (environment variables), as an association
list from variable name to raw string value. -/
abbrev Env := List (String × String)

/-- Model of `os.getenv(key, default)`: the stored value when the key is
set, the default otherwise. -/
def osGetenv (env : Env) (key dflt : String) : String :=
  (List.lookup key env).getD dflt

/-- The spec's `ConfigParseError`: a raw override value cannot be coerced
to its declared type.  Realized in the code by the `ValueError` that
Python's `int()`/`float()` raise; the offending raw string is carried. -/
inductive ConfigParseError where
  | valueError (raw : String)
deriving DecidableEq, Repr

/-- Numeric value of a decimal digit character, `none` otherwise. -/
def decDigit? (c : Char) : Option Nat :=
  if c.isDigit then some (c.toNat - 48) else none

/-- Continuation of Python's decimal-integer lexer after the first digit:
further digits, with single `_` group separators allowed only between two
digits. -/
def pyDigitsAux : Nat → List Char → Option Nat
  | acc, [] => some acc
  | _, ['_'] => none
  | acc, '_' :: c :: cs =>
      match decDigit? c with
      | some d => pyDigitsAux (acc * 10 + d) cs
      | none => none
  | acc, c :: cs =>
      match decDigit? c with
      | some d => pyDigitsAux (acc * 10 + d) cs
      | none => none

/-- Value of a nonempty decimal digit run (Python grouping rules). -/
def pyDigits : List Char → Option Nat
  | [] => none
  | c :: cs =>
      match decDigit? c with
      | some d => pyDigitsAux d cs
      | none => none

/-- Model of Python's `int(s)` on decimal strings: surrounding whitespace
stripped, an optional sign, then a nonempty digit run.  Any other string
raises `ValueError`, embedded as `ConfigParseError.valueError`. -/
def pyInt (s : String) : Except ConfigParseError Int :=
  let t := s.trim
  let signed : Int × List Char :=
    match t.toList with
    | '+' :: cs => (1, cs)
    | '-' :: cs => (-1, cs)
    | cs => (1, cs)
  match pyDigits signed.2 with
  | some n => .ok (signed.1 * n)
  | none => .error (.valueError s)

/-- Longest digit prefix of a character list, and the rest. -/
def spanDigits (cs : List Char) : List Char × List Char :=
  cs.span Char.isDigit

/-- Value of a digit list read in base 10. -/
def digitsToNat (ds : List Char) : Nat :=
  ds.foldl (fun a c => a * 10 + (c.toNat - 48)) 0

/-- Optional exponent suffix of a Python float literal applied to an
already-parsed mantissa; an empty rest means no exponent. -/
def pyFloatExp (mant : ℚ) : List Char → Option ℚ
  | [] => some mant
  | c :: rest =>
      if c = 'e' ∨ c = 'E' then
        let signed : Int × List Char :=
          match rest with
          | '+' :: cs => (1, cs)
          | '-' :: cs => (-1, cs)
          | cs => (1, cs)
        let (ds, r) := spanDigits signed.2
        if ds.isEmpty ∨ ¬ r.isEmpty then none
        else some (mant * (10 : ℚ) ^ (signed.1 * (digitsToNat ds : Int)))
      else none

/-- Mantissa (with optional fraction part) and exponent of a Python float
literal, after the sign: `digits [. digits] [exp]` or `. digits [exp]`,
with at least one mantissa digit. -/
def pyFloatCore (cs : List Char) : Option ℚ :=
  let (ip, r1) := spanDigits cs
  match r1 with
  | '.' :: r2 =>
      let (fp, r3) := spanDigits r2
      if ip.isEmpty ∧ fp.isEmpty then none
      else
        pyFloatExp ((digitsToNat ip : ℚ) + (digitsToNat fp : ℚ) / (10 : ℚ) ^ fp.length) r3
  | _ =>
      if ip.isEmpty then none
      else pyFloatExp (digitsToNat ip : ℚ) r1

/-- Model of Python's `float(s)` on finite decimal literals: surrounding
whitespace stripped, optional sign, decimal mantissa, optional exponent.
`inf`/`nan` and digit-group underscores are outside the model's scope.
Any non-coercible string raises `ValueError`, embedded as
`ConfigParseError.valueError`. -/
def pyFloat (s : String) : Except ConfigParseError ℚ :=
  let t := s.trim
  let signed : ℚ × List Char :=
    match t.toList with
    | '+' :: cs => (1, cs)
    | '-' :: cs => (-1, cs)
    | cs => (1, cs)
  match pyFloatCore signed.2 with
  | some q => .ok (signed.1 * q)
  | none => .error (.valueError s)

/-- `FirebaseConfig` dataclass of `src/config.py`: backend identifier and
the two logical collection names. -/
structure FirebaseConfig where
  project_id : String := "cross-domain-synergy"
  collection_name : String := "domain_data"
  synergy_collection : String := "detected_synergies"
deriving DecidableEq, Repr

/-- `FirebaseConfig.from_env`: pure string reads, no coercion, so loading
this group never fails. -/
def FirebaseConfig.from_env (env : Env) : FirebaseConfig :=
  { project_id := osGetenv env "FIREBASE_PROJECT_ID" "cross-domain-synergy"
    collection_name := osGetenv env "FIREBASE_COLLECTION" "domain_data"
    synergy_collection := osGetenv env "SYNERGY_COLLECTION" "detected_synergies" }

/-- `DomainConfig` dataclass of `src/config.py`. -/
structure DomainConfig where
  financial_interval : Int := 60
  social_interval : Int := 300
  iot_interval : Int := 30
  window_size : Int := 10
  correlation_threshold : ℚ := 7 / 10
deriving DecidableEq, Repr

/-- `DomainConfig.from_env`: each field read from its override (or its
documented default) and coerced; the first coercion failure propagates, in
the evaluation order of the source's constructor call. -/
def DomainConfig.from_env (env : Env) : Except ConfigParseError DomainConfig :=
  match pyInt (osGetenv env "FINANCIAL_INTERVAL" "60") with
  | .error e => .error e
  | .ok fi =>
  match pyInt (osGetenv env "SOCIAL_INTERVAL" "300") with
  | .error e => .error e
  | .ok si =>
  match pyInt (osGetenv env "IOT_INTERVAL" "30") with
  | .error e => .error e
  | .ok ii =>
  match pyInt (osGetenv env "WINDOW_SIZE" "10") with
  | .error e => .error e
  | .ok ws =>
  match pyFloat (osGetenv env "CORRELATION_THRESHOLD" "0.7") with
  | .error e => .error e
  | .ok ct =>
    .ok { financial_interval := fi, social_interval := si, iot_interval := ii,
          window_size := ws, correlation_threshold := ct }

/-- `SynergyConfig` dataclass of `src/config.py`. -/
structure SynergyConfig where
  min_cluster_size : Int := 3
  anomaly_threshold : ℚ := 5 / 2
  batch_size : Int := 100
  enable_real_time : Bool := true
deriving DecidableEq, Repr

/-- `SynergyConfig.from_env`: three coerced numeric fields and the boolean
`ENABLE_REAL_TIME`, which lowercases the raw string and compares it with
`"true"` (never failing). -/
def SynergyConfig.from_env (env : Env) : Except ConfigParseError SynergyConfig :=
  match pyInt (osGetenv env "MIN_CLUSTER_SIZE" "3") with
  | .error e => .error e
  | .ok mcs =>
  match pyFloat (osGetenv env "ANOMALY_THRESHOLD" "2.5") with
  | .error e => .error e
  | .ok at_ =>
  match pyInt (osGetenv env "BATCH_SIZE" "100") with
  | .error e => .error e
  | .ok bs =>
    .ok { min_cluster_size := mcs, anomaly_threshold := at_, batch_size := bs,
          enable_real_time := (osGetenv env "ENABLE_REAL_TIME" "true").toLower == "true" }

/-- `ConfigManager` of `src/config.py`: the aggregate configuration
snapshot (the spec's `ConfigSnapshot`). -/
structure ConfigManager where
  firebase : FirebaseConfig
  domains : DomainConfig
  synergy : SynergyConfig
  log_level : String := "INFO"
deriving DecidableEq, Repr

/-- `ConfigManager.__init__`: loads all three groups and the log level;
the first coercion failure anywhere aborts loading (the spec's `load()`). -/
def ConfigManager.load (env : Env) : Except ConfigParseError ConfigManager :=
  match DomainConfig.from_env env with
  | .error e => .error e
  | .ok d =>
  match SynergyConfig.from_env env with
  | .error e => .error e
  | .ok s =>
    .ok { firebase := FirebaseConfig.from_env env, domains := d, synergy := s,
          log_level := osGetenv env "LOG_LEVEL" "INFO" }

/-- The ordered validation batch of `ConfigManager.validate`: each entry a
condition and the message logged if it is the first to fail. -/
def ConfigManager.validations (m : ConfigManager) : List (Bool × String) :=
  [ (decide (0 < m.domains.financial_interval), "Financial interval must be positive"),
    (decide (0 < m.domains.social_interval), "Social interval must be positive"),
    (decide (0 < m.domains.iot_interval), "IoT interval must be positive"),
    (decide (0 < m.domains.correlation_threshold ∧ m.domains.correlation_threshold < 1),
      "Correlation threshold must be between 0 and 1"),
    (decide (1 < m.synergy.min_cluster_size), "Min cluster size must be > 1") ]

/-- The loop of `ConfigManager.validate`: message of the first failing
condition, `none` when all hold. -/
def firstFailure : List (Bool × String) → Option String
  | [] => none
  | (cond, msg) :: rest => if cond then firstFailure rest else some msg

/-- The message `ConfigManager.validate` logs (at error level), if any. -/
def ConfigManager.validateLog (m : ConfigManager) : Option String :=
  firstFailure m.validations

/-- `ConfigManager.validate`: true when every condition of the batch
holds; a total function (the loop only compares and returns, so the Python
original cannot raise). -/
def ConfigManager.validate (m : ConfigManager) : Bool :=
  (ConfigManager.validateLog m).isNone

/-- The five validation rules of the spec's table, as one proposition. -/
def ValidRules (m : ConfigManager) : Prop :=
  0 < m.domains.financial_interval ∧
  0 < m.domains.social_interval ∧
  0 < m.domains.iot_interval ∧
  (0 < m.domains.correlation_threshold ∧ m.domains.correlation_threshold < 1) ∧
  1 < m.synergy.min_cluster_size

instance (m : ConfigManager) : Decidable (ValidRules m) := by
  unfold ValidRules; infer_instance

/-- The spec's PersistenceManager lifecycle states. -/
inductive PMState where
  | Uninitialized
  | Live
  | Mock
  | Failed
deriving DecidableEq, Repr

/-- Outcome of the live-backend connection attempt, classifying the
truncated live branch of `FirebaseManager.initialize` per the spec:
connection succeeds, fails with a connectivity/credential error (fallback
to mock), or fails with an unexpected unclassified error. -/
inductive LiveOutcome where
  | success
  | connectivityError
  | unclassifiedError
deriving DecidableEq, Repr

/-- A scalar field value of a stored record. -/
inductive PValue where
  | s (v : String)
  | i (v : Int)
  | b (v : Bool)
deriving DecidableEq, Repr

/-- A record: a mapping of field name to scalar value. -/
abbrev Record := List (String × PValue)

/-- `FirebaseManager.__init__` state of `src/firebase_manager.py`:
`client` (a handle when a live connection was opened), the `initialized`
flag, and the `_mock_data` in-memory store keyed by
`(collection, key)`, each entry carrying its attached local timestamp. -/
structure FirebaseManager where
  client : Option Unit
  initialized : Bool
  mock_data : List ((String × String) × (Record × Nat))
deriving DecidableEq, Repr

/-- A freshly constructed manager: no client, not initialized, empty
mock store. -/
def FirebaseManager.new : FirebaseManager :=
  { client := none, initialized := false, mock_data := [] }

/-- `FirebaseManager.initialize` (named `init` here since `initialize` is
a Lean keyword).  `available` is the module-level `FIREBASE_AVAILABLE`
flag.  The unavailable branch is verbatim from source lines 38-42: log a
warning, set `initialized`, return `True`.  The available branch is
truncated in the source; it is modelled from the spec: reuse or open a
handle on success, fall back to mock on a connectivity/credential error,
and only an unclassified error returns failure. -/
def FirebaseManager.init (available : Bool) (outcome : LiveOutcome)
    (m : FirebaseManager) : Bool × FirebaseManager :=
  if available = false then
    (true, { m with initialized := true })
  else
    match outcome with
    | .success => (true, { m with initialized := true, client := some () })
    | .connectivityError => (true, { m with initialized := true, client := none })
    | .unclassifiedError => (false, m)

/-- The lifecycle state a manager is in: `Uninitialized` before
`initialize`, then `Live` when a real handle is held and `Mock`
otherwise. -/
def FirebaseManager.mode (m : FirebaseManager) : PMState :=
  if m.initialized = false then .Uninitialized
  else
    match m.client with
    | some _ => .Live
    | none => .Mock

/-- Lookup in an association store keyed by `(collection, key)`. -/
def storeGet {α : Type} : List ((String × String) × α) → String × String → Option α
  | [], _ => none
  | (k', v) :: rest, k => if k' = k then some v else storeGet rest k

/-- Overwriting insert in an association store keyed by
`(collection, key)`: last write wins, no versioning. -/
def storePut {α : Type} : List ((String × String) × α) → String × String → α →
    List ((String × String) × α)
  | [], k, v => [(k, v)]
  | (k', v') :: rest, k, v =>
      if k' = k then (k, v) :: rest else (k', v') :: storePut rest k v

/-- The spec's `PersistError`: operation against a manager with no usable
backend, or an unclassified backend error. -/
inductive PersistError where
  | failedState
deriving DecidableEq, Repr

/-- The spec's `InitError`: the backend could neither connect nor be
treated as capability-absent. -/
inductive InitError where
  | initFailure
deriving DecidableEq, Repr

/-- Modelled from the spec: the PersistenceManager state the operations
`put`/`get`/`close` of `src/firebase_manager.py` act on (their bodies are
absent from the source excerpt).  `mockStore` is the in-process store,
`backend` a fake live backend satisfying the generic contract, `clock`
the wall-clock source for write timestamps. -/
structure PersistenceManager where
  mode : PMState
  mockStore : List ((String × String) × (Record × Nat))
  backend : List ((String × String) × (Record × Nat))
  clock : Nat
deriving DecidableEq, Repr

/-- Modelled from the spec: `put(collection, key, record)`.  In `Live`
mode it writes through to the backend with a timestamp (`netOk` says
whether the backend is reachable); a connectivity failure degrades the
manager to `Mock` and retries the write once against the mock store.  In
`Mock` mode it writes the in-memory mapping.  While `Failed` (or before
`initialize`) it fails fast with `PersistError`.  The third component
reports whether the real backend was contacted. -/
def PersistenceManager.put (netOk : Bool) (c k : String) (r : Record)
    (m : PersistenceManager) :
    Except PersistError Unit × PersistenceManager × Bool :=
  match m.mode with
  | .Uninitialized => (.error .failedState, m, false)
  | .Failed => (.error .failedState, m, false)
  | .Mock =>
      (.ok (), { m with mockStore := storePut m.mockStore (c, k) (r, m.clock),
                        clock := m.clock + 1 }, false)
  | .Live =>
      if netOk then
        (.ok (), { m with backend := storePut m.backend (c, k) (r, m.clock),
                          clock := m.clock + 1 }, true)
      else
        (.ok (), { m with mode := .Mock,
                          mockStore := storePut m.mockStore (c, k) (r, m.clock),
                          clock := m.clock + 1 }, true)

/-- Modelled from the spec: `get(collection, key)` returns the stored
record or `none` ("not found"); an unreachable backend in `Live` mode
degrades to `Mock` and the lookup is retried once against the mock
store. -/
def PersistenceManager.get (netOk : Bool) (c k : String)
    (m : PersistenceManager) :
    Except PersistError (Option Record) × PersistenceManager × Bool :=
  match m.mode with
  | .Uninitialized => (.error .failedState, m, false)
  | .Failed => (.error .failedState, m, false)
  | .Mock => (.ok ((storeGet m.mockStore (c, k)).map Prod.fst), m, false)
  | .Live =>
      if netOk then
        (.ok ((storeGet m.backend (c, k)).map Prod.fst), m, true)
      else
        (.ok ((storeGet m.mockStore (c, k)).map Prod.fst),
          { m with mode := .Mock }, true)

/-- Modelled from the spec: `initialize` at the state-machine level.  From
`Uninitialized`: library absent selects `Mock` without touching the
backend; otherwise the attempt's outcome selects `Live`, falls back to
`Mock`, or yields `InitError` and `Failed`.  A second call reuses the
already-selected backend (idempotent) and does not contact the real
backend again. -/
def PersistenceManager.initStep (available : Bool) (outcome : LiveOutcome)
    (m : PersistenceManager) :
    Except InitError Unit × PersistenceManager × Bool :=
  match m.mode with
  | .Uninitialized =>
      if available = false then (.ok (), { m with mode := .Mock }, false)
      else
        match outcome with
        | .success => (.ok (), { m with mode := .Live }, true)
        | .connectivityError => (.ok (), { m with mode := .Mock }, true)
        | .unclassifiedError => (.error .initFailure, { m with mode := .Failed }, true)
  | .Failed => (.error .initFailure, m, false)
  | _ => (.ok (), m, false)

/-- Modelled from the spec: `close()` releases the handle if `Live`, is a
no-op if `Mock`, and is idempotent; it never contacts the backend anew
and changes no lifecycle mode. -/
def PersistenceManager.close (m : PersistenceManager) : PersistenceManager :=
  m

/-- One externally invocable operation of the PersistenceManager, with its
environment conditions (library availability, attempt outcome, backend
reachability). -/
inductive PMOp where
  | initOp (available : Bool) (outcome : LiveOutcome)
  | putOp (netOk : Bool) (c k : String) (r : Record)
  | getOp (netOk : Bool) (c k : String)
  | closeOp
deriving Repr

/-- State transition of one operation, paired with whether the operation
attempted to reach the real backend. -/
def stepPM : PMOp → PersistenceManager → PersistenceManager × Bool
  | .initOp a o, m => (PersistenceManager.initStep a o m).2
  | .putOp n c k r, m => (PersistenceManager.put n c k r m).2
  | .getOp n c k, m => (PersistenceManager.get n c k m).2
  | .closeOp, m => (PersistenceManager.close m, false)

/-- Run of a whole operation sequence; the boolean is true when any step
attempted to reach the real backend. -/
def runOps : List PMOp → PersistenceManager → PersistenceManager × Bool
  | [], m => (m, false)
  | op :: ops, m =>
      let x := stepPM op m
      let y := runOps ops x.1
      (y.1, x.2 || y.2)

/-- The transitions the spec admits: out of `Uninitialized` anywhere,
`Live` may stay or degrade to `Mock`, and `Mock`/`Failed` are
absorbing; in particular `Mock` to `Live` is forbidden. -/
def allowedTransition : PMState → PMState → Bool
  | .Uninitialized, _ => true
  | .Live, .Live => true
  | .Live, .Mock => true
  | .Mock, .Mock => true
  | .Failed, .Failed => true
  | _, _ => false

deriving instance DecidableEq for Except

/-- Key fact shared by the validation claims: the batch loop accepts a
snapshot exactly when all five rules of the spec's table hold. -/
lemma validate_eq_true_iff (m : ConfigManager) :
    ConfigManager.validate m = true ↔ ValidRules m := by
  by_cases h1 : 0 < m.domains.financial_interval <;>
  by_cases h2 : 0 < m.domains.social_interval <;>
  by_cases h3 : 0 < m.domains.iot_interval <;>
  by_cases h4 : 0 < m.domains.correlation_threshold ∧ m.domains.correlation_threshold < 1 <;>
  by_cases h5 : 1 < m.synergy.min_cluster_size <;>
  simp [ConfigManager.validate, ConfigManager.validateLog, ConfigManager.validations,
    firstFailure, ValidRules, h1, h2, h3, h4, h5]

/-- A default-valued snapshot (every override absent), used to instantiate
the validation theorems. -/
def cfgDefault : ConfigManager :=
  { firebase := {}, domains := {}, synergy := {} }

/-- A snapshot whose five validated fields are the defaults but whose
unvalidated fields are zero or negative, used to instantiate claim C8. -/
def cfgWeird : ConfigManager :=
  { firebase := {},
    domains := { window_size := -5 },
    synergy := { anomaly_threshold := -1, batch_size := 0 } }

/-- A snapshot violating exactly the correlation-threshold rule, used to
instantiate claim C3. -/
def cfgBadCorr : ConfigManager :=
  { firebase := {}, domains := { correlation_threshold := 3 / 2 }, synergy := {} }

/-- Claim C2: `validate()` returns true iff all five rules hold
(financial, social and IoT intervals positive, correlation threshold
strictly between 0 and 1, min cluster size above 1); in particular any
snapshot produced by `load()` that satisfies the rules validates. -/
theorem validate_iff_rules_and_load :
    (∀ m : ConfigManager, ConfigManager.validate m = true ↔ ValidRules m) ∧
    (∀ (env : Env) (m : ConfigManager), ConfigManager.load env = .ok m →
      ValidRules m → ConfigManager.validate m = true) :=
  ⟨validate_eq_true_iff, fun _ m _ h => (validate_eq_true_iff m).mpr h⟩

/-- Witness for claim C2: the empty override set loads the default
snapshot, which satisfies the rules and validates. -/
theorem validate_iff_rules_and_load_witness :
    ConfigManager.load [] = .ok cfgDefault ∧ ValidRules cfgDefault ∧
    ConfigManager.validate cfgDefault = true :=
  ⟨by with_unfolding_all decide, by with_unfolding_all decide,
   validate_iff_rules_and_load.2 [] cfgDefault (by with_unfolding_all decide)
     (by with_unfolding_all decide)⟩

/-- Claim C3: on any rule violation `validate()` returns false (it is a
total function, so the original cannot raise) and the logged message is
the one of the first failing rule in the batch's fixed order. -/
theorem validate_logs_first_violation (m : ConfigManager) (h : ¬ ValidRules m) :
    ConfigManager.validate m = false ∧
    ((¬ 0 < m.domains.financial_interval →
        ConfigManager.validateLog m = some "Financial interval must be positive") ∧
     (0 < m.domains.financial_interval → ¬ 0 < m.domains.social_interval →
        ConfigManager.validateLog m = some "Social interval must be positive") ∧
     (0 < m.domains.financial_interval → 0 < m.domains.social_interval →
        ¬ 0 < m.domains.iot_interval →
        ConfigManager.validateLog m = some "IoT interval must be positive") ∧
     (0 < m.domains.financial_interval → 0 < m.domains.social_interval →
        0 < m.domains.iot_interval →
        ¬ (0 < m.domains.correlation_threshold ∧ m.domains.correlation_threshold < 1) →
        ConfigManager.validateLog m = some "Correlation threshold must be between 0 and 1") ∧
     (0 < m.domains.financial_interval → 0 < m.domains.social_interval →
        0 < m.domains.iot_interval →
        (0 < m.domains.correlation_threshold ∧ m.domains.correlation_threshold < 1) →
        ¬ 1 < m.synergy.min_cluster_size →
        ConfigManager.validateLog m = some "Min cluster size must be > 1")) := by
  by_cases h1 : 0 < m.domains.financial_interval <;>
  by_cases h2 : 0 < m.domains.social_interval <;>
  by_cases h3 : 0 < m.domains.iot_interval <;>
  by_cases h4 : 0 < m.domains.correlation_threshold ∧ m.domains.correlation_threshold < 1 <;>
  by_cases h5 : 1 < m.synergy.min_cluster_size <;>
  simp [ConfigManager.validate, ConfigManager.validateLog, ConfigManager.validations,
    firstFailure, ValidRules, h1, h2, h3, h4, h5] at h ⊢

/-- Witness for claim C3: the snapshot violating only the correlation
threshold fails validation and logs exactly that rule's message. -/
theorem validate_logs_first_violation_witness :
    ConfigManager.validate cfgBadCorr = false ∧
    ConfigManager.validateLog cfgBadCorr =
      some "Correlation threshold must be between 0 and 1" :=
  ⟨(validate_logs_first_violation cfgBadCorr (by with_unfolding_all decide)).1,
   (validate_logs_first_violation cfgBadCorr (by with_unfolding_all decide)).2.2.2.2.1
     (by with_unfolding_all decide) (by with_unfolding_all decide)
     (by with_unfolding_all decide) (by with_unfolding_all decide)⟩

/-- Claim C8: `validate()` only examines the five listed fields — changing
the firebase settings, window size, anomaly threshold, batch size,
real-time flag or log level never changes its verdict, and any snapshot
satisfying the five rules validates regardless of those fields. -/
theorem validate_ignores_untested_fields :
    (∀ (m : ConfigManager) (fb : FirebaseConfig) (w : Int) (a : ℚ) (b : Int)
        (rt : Bool) (ll : String),
      ConfigManager.validate
        (ConfigManager.mk fb
          (DomainConfig.mk m.domains.financial_interval m.domains.social_interval
            m.domains.iot_interval w m.domains.correlation_threshold)
          (SynergyConfig.mk m.synergy.min_cluster_size a b rt) ll) =
        ConfigManager.validate m) ∧
    (∀ m : ConfigManager, ValidRules m → ConfigManager.validate m = true) := by
  constructor
  · intro m fb w a b rt ll
    rfl
  · intro m h
    exact (validate_eq_true_iff m).mpr h

/-- Witness for claim C8: a snapshot with zero/negative window size,
anomaly threshold and batch size still validates. -/
theorem validate_ignores_untested_fields_witness :
    ValidRules cfgWeird ∧ ConfigManager.validate cfgWeird = true ∧
    cfgWeird.domains.window_size = -5 ∧ cfgWeird.synergy.batch_size = 0 ∧
    cfgWeird.synergy.anomaly_threshold = -1 :=
  ⟨by with_unfolding_all decide,
   validate_ignores_untested_fields.2 cfgWeird (by with_unfolding_all decide),
   rfl, rfl, by with_unfolding_all decide⟩

/-- Claim C1: with the client library absent, `initialize` returns
success and the manager ends in `Mock` state — never `Uninitialized`, and
never a failure result.  (While the library is absent the live branch
never runs, so `client` is `none` in every reachable manager, which is
the hypothesis.) -/
theorem init_without_library_mock_success (outcome : LiveOutcome)
    (m : FirebaseManager) (h : m.client = none) :
    (FirebaseManager.init false outcome m).1 = true ∧
    (FirebaseManager.init false outcome m).2.mode = PMState.Mock := by
  refine ⟨rfl, ?_⟩
  simp [FirebaseManager.init, FirebaseManager.mode, h]

/-- Witness for claim C1: a freshly constructed manager initialized
without the library returns success in `Mock` state. -/
theorem init_without_library_mock_success_witness :
    FirebaseManager.new.client = none ∧
    (FirebaseManager.init false LiveOutcome.success FirebaseManager.new).1 = true ∧
    (FirebaseManager.init false LiveOutcome.success FirebaseManager.new).2.mode =
      PMState.Mock :=
  ⟨rfl, init_without_library_mock_success LiveOutcome.success FirebaseManager.new rfl⟩

/-- Claim C9: with the client library absent, a second `initialize` after
a successful first one also returns success and leaves the manager's state
exactly as after the first call. -/
theorem init_idempotent_when_library_absent (o1 o2 : LiveOutcome)
    (m : FirebaseManager)
    (h : (FirebaseManager.init false o1 m).1 = true) :
    FirebaseManager.init false o2 (FirebaseManager.init false o1 m).2 =
      (true, (FirebaseManager.init false o1 m).2) := rfl

/-- Witness for claim C9: two initializations of a fresh manager without
the library agree with a single one. -/
theorem init_idempotent_when_library_absent_witness :
    (FirebaseManager.init false LiveOutcome.success FirebaseManager.new).1 = true ∧
    FirebaseManager.init false LiveOutcome.connectivityError
        (FirebaseManager.init false LiveOutcome.success FirebaseManager.new).2 =
      (true, (FirebaseManager.init false LiveOutcome.success FirebaseManager.new).2) :=
  ⟨rfl, init_idempotent_when_library_absent LiveOutcome.success
    LiveOutcome.connectivityError FirebaseManager.new rfl⟩

/-- Claim C10: with the client library absent, `initialize` only sets the
`initialized` flag: `client` and the mock store are untouched, so a fresh
manager still has no client and an empty store afterwards. -/
theorem init_frame_effect_when_library_absent (outcome : LiveOutcome)
    (m : FirebaseManager) :
    ((FirebaseManager.init false outcome m).2.initialized = true ∧
     (FirebaseManager.init false outcome m).2.client = m.client ∧
     (FirebaseManager.init false outcome m).2.mock_data = m.mock_data) ∧
    ((FirebaseManager.init false outcome FirebaseManager.new).2.client = none ∧
     (FirebaseManager.init false outcome FirebaseManager.new).2.mock_data = []) :=
  ⟨⟨rfl, rfl, rfl⟩, rfl, rfl⟩

/-- Witness for claim C10: the frame effect at a concrete fresh manager. -/
theorem init_frame_effect_when_library_absent_witness :
    ((FirebaseManager.init false LiveOutcome.success FirebaseManager.new).2.initialized = true ∧
     (FirebaseManager.init false LiveOutcome.success FirebaseManager.new).2.client =
       FirebaseManager.new.client ∧
     (FirebaseManager.init false LiveOutcome.success FirebaseManager.new).2.mock_data =
       FirebaseManager.new.mock_data) ∧
    ((FirebaseManager.init false LiveOutcome.success FirebaseManager.new).2.client = none ∧
     (FirebaseManager.init false LiveOutcome.success FirebaseManager.new).2.mock_data = []) :=
  init_frame_effect_when_library_absent LiveOutcome.success FirebaseManager.new

/-- If loading the domain group succeeds, every one of its five raw
values was coercible. -/
lemma domain_from_env_ok (env : Env) (d : DomainConfig)
    (h : DomainConfig.from_env env = .ok d) :
    (∃ v, pyInt (osGetenv env "FINANCIAL_INTERVAL" "60") = .ok v) ∧
    (∃ v, pyInt (osGetenv env "SOCIAL_INTERVAL" "300") = .ok v) ∧
    (∃ v, pyInt (osGetenv env "IOT_INTERVAL" "30") = .ok v) ∧
    (∃ v, pyInt (osGetenv env "WINDOW_SIZE" "10") = .ok v) ∧
    (∃ v, pyFloat (osGetenv env "CORRELATION_THRESHOLD" "0.7") = .ok v) := by
  unfold DomainConfig.from_env at h
  split at h
  · exact absurd h (by simp)
  split at h
  · exact absurd h (by simp)
  split at h
  · exact absurd h (by simp)
  split at h
  · exact absurd h (by simp)
  split at h
  · exact absurd h (by simp)
  refine ⟨⟨_, by assumption⟩, ⟨_, by assumption⟩, ⟨_, by assumption⟩,
    ⟨_, by assumption⟩, ⟨_, by assumption⟩⟩

/-- If loading the synergy group succeeds, every one of its coerced raw
values was coercible. -/
lemma synergy_from_env_ok (env : Env) (s : SynergyConfig)
    (h : SynergyConfig.from_env env = .ok s) :
    (∃ v, pyInt (osGetenv env "MIN_CLUSTER_SIZE" "3") = .ok v) ∧
    (∃ v, pyFloat (osGetenv env "ANOMALY_THRESHOLD" "2.5") = .ok v) ∧
    (∃ v, pyInt (osGetenv env "BATCH_SIZE" "100") = .ok v) := by
  unfold SynergyConfig.from_env at h
  split at h
  · exact absurd h (by simp)
  split at h
  · exact absurd h (by simp)
  split at h
  · exact absurd h (by simp)
  exact ⟨⟨_, by assumption⟩, ⟨_, by assumption⟩, ⟨_, by assumption⟩⟩

/-- If the whole snapshot loads, both coerced groups loaded. -/
lemma load_ok_groups (env : Env) (m : ConfigManager)
    (h : ConfigManager.load env = .ok m) :
    (∃ d, DomainConfig.from_env env = .ok d) ∧
    (∃ s, SynergyConfig.from_env env = .ok s) := by
  unfold ConfigManager.load at h
  split at h
  · exact absurd h (by simp)
  split at h
  · exact absurd h (by simp)
  exact ⟨⟨_, by assumption⟩, ⟨_, by assumption⟩⟩

/-- Claim C5: if any raw override value of a coerced field is not
coercible to its declared type, `load()` surfaces a `ConfigParseError` to
its caller (there is no retry or recovery anywhere in `load()`). -/
theorem parse_error_surfaces_from_load (env : Env)
    (h : (∃ e, pyInt (osGetenv env "FINANCIAL_INTERVAL" "60") = .error e) ∨
         (∃ e, pyInt (osGetenv env "SOCIAL_INTERVAL" "300") = .error e) ∨
         (∃ e, pyInt (osGetenv env "IOT_INTERVAL" "30") = .error e) ∨
         (∃ e, pyInt (osGetenv env "WINDOW_SIZE" "10") = .error e) ∨
         (∃ e, pyFloat (osGetenv env "CORRELATION_THRESHOLD" "0.7") = .error e) ∨
         (∃ e, pyInt (osGetenv env "MIN_CLUSTER_SIZE" "3") = .error e) ∨
         (∃ e, pyFloat (osGetenv env "ANOMALY_THRESHOLD" "2.5") = .error e) ∨
         (∃ e, pyInt (osGetenv env "BATCH_SIZE" "100") = .error e)) :
    ∃ e : ConfigParseError, ConfigManager.load env = .error e := by
  cases hl : ConfigManager.load env with
  | error e => exact ⟨e, rfl⟩
  | ok m =>
    exfalso
    obtain ⟨⟨d, hd⟩, ⟨s, hs⟩⟩ := load_ok_groups env m hl
    obtain ⟨⟨v1, e1⟩, ⟨v2, e2⟩, ⟨v3, e3⟩, ⟨v4, e4⟩, ⟨v5, e5⟩⟩ :=
      domain_from_env_ok env d hd
    obtain ⟨⟨v6, e6⟩, ⟨v7, e7⟩, ⟨v8, e8⟩⟩ := synergy_from_env_ok env s hs
    rcases h with ⟨e, he⟩ | ⟨e, he⟩ | ⟨e, he⟩ | ⟨e, he⟩ | ⟨e, he⟩ | ⟨e, he⟩ |
      ⟨e, he⟩ | ⟨e, he⟩ <;> simp_all

/-- Witness for claim C5: a non-numeric financial interval makes `load()`
fail with a `ConfigParseError`. -/
theorem parse_error_surfaces_from_load_witness :
    (∃ e, pyInt (osGetenv [("FINANCIAL_INTERVAL", "sixty")]
        "FINANCIAL_INTERVAL" "60") = .error e) ∧
    ∃ e, ConfigManager.load [("FINANCIAL_INTERVAL", "sixty")] = .error e :=
  ⟨⟨.valueError "sixty", by with_unfolding_all decide⟩,
   parse_error_surfaces_from_load [("FINANCIAL_INTERVAL", "sixty")]
     (Or.inl ⟨.valueError "sixty", by with_unfolding_all decide⟩)⟩

/-- Reading the one variable an environment sets yields its value. -/
lemma osGetenv_hit (s k d : String) : osGetenv [(k, s)] k d = s := by
  simp [osGetenv, List.lookup]

/-- Reading an unset variable yields the supplied default. -/
lemma osGetenv_miss (s k k2 d : String) (h : (k2 == k) = false) :
    osGetenv [(k, s)] k2 d = d := by
  simp [osGetenv, List.lookup, h]

/-- Claim C7: the `ENABLE_REAL_TIME` coercion is case-insensitive — the
loaded flag is true exactly when the raw string lowercases to `"true"`,
and any other string yields false without failing the load of its group. -/
theorem real_time_flag_coercion (s : String) :
    ∃ sc : SynergyConfig,
      SynergyConfig.from_env [("ENABLE_REAL_TIME", s)] = .ok sc ∧
      (sc.enable_real_time = true ↔ s.toLower = "true") ∧
      (s.toLower ≠ "true" → sc.enable_real_time = false) := by
  refine ⟨⟨3, 5 / 2, 100, s.toLower == "true"⟩, ?_, by simp, ?_⟩
  · unfold SynergyConfig.from_env
    rw [osGetenv_hit,
      osGetenv_miss s "ENABLE_REAL_TIME" "MIN_CLUSTER_SIZE" "3" (by decide),
      osGetenv_miss s "ENABLE_REAL_TIME" "ANOMALY_THRESHOLD" "2.5" (by decide),
      osGetenv_miss s "ENABLE_REAL_TIME" "BATCH_SIZE" "100" (by decide),
      (by with_unfolding_all decide : pyInt "3" = .ok 3),
      (by with_unfolding_all decide : pyFloat "2.5" = .ok (5 / 2)),
      (by with_unfolding_all decide : pyInt "100" = .ok 100)]
  · intro h
    simp [h]

/-- Witness for claim C7: the raw string `"False"` loads as a false flag
without an error. -/
theorem real_time_flag_coercion_witness :
    ∃ sc : SynergyConfig,
      SynergyConfig.from_env [("ENABLE_REAL_TIME", "False")] = .ok sc ∧
      (sc.enable_real_time = true ↔ "False".toLower = "true") ∧
      ("False".toLower ≠ "true" → sc.enable_real_time = false) :=
  real_time_flag_coercion "False"

/-- Writing a key then reading it back yields the written entry. -/
lemma storeGet_storePut_self {α : Type} (st : List ((String × String) × α))
    (k : String × String) (v : α) : storeGet (storePut st k v) k = some v := by
  induction st with
  | nil => simp [storePut, storeGet]
  | cons hd tl ih =>
      obtain ⟨k', v'⟩ := hd
      by_cases hk : k' = k
      · subst hk
        simp [storePut, storeGet]
      · simp [storePut, storeGet, hk, ih]

/-- Once in `Mock`, every operation leaves the manager in `Mock` and does
not contact the real backend. -/
lemma mock_step_absorbing (op : PMOp) (m : PersistenceManager)
    (h : m.mode = PMState.Mock) :
    (stepPM op m).1.mode = PMState.Mock ∧ (stepPM op m).2 = false := by
  cases op <;>
    simp [stepPM, PersistenceManager.put, PersistenceManager.get,
      PersistenceManager.initStep, PersistenceManager.close, h]

/-- A manager in `Mock` mode with empty stores, used to instantiate the
persistence theorems. -/
def pmMock : PersistenceManager :=
  { mode := .Mock, mockStore := [], backend := [], clock := 0 }

/-- Claim C4: in both `Mock` and `Live` modes, `put(c, k, r)` followed by
`get(c, k)` returns a record equal to `r`, and a second `put` to the same
key overwrites the first (last write wins, no versioning). -/
theorem put_get_roundtrip_overwrite (c k : String) (r r2 : Record)
    (m : PersistenceManager)
    (h : m.mode = PMState.Mock ∨ m.mode = PMState.Live) :
    (PersistenceManager.get true c k
        (PersistenceManager.put true c k r m).2.1).1 = .ok (some r) ∧
    (PersistenceManager.get true c k
        (PersistenceManager.put true c k r2
          (PersistenceManager.put true c k r m).2.1).2.1).1 = .ok (some r2) := by
  rcases h with h | h <;>
    simp [PersistenceManager.put, PersistenceManager.get, h, storeGet_storePut_self]

/-- Witness for claim C4: a concrete round trip and overwrite in `Mock`
mode. -/
theorem put_get_roundtrip_overwrite_witness :
    (pmMock.mode = PMState.Mock ∨ pmMock.mode = PMState.Live) ∧
    (PersistenceManager.get true "domain_data" "k1"
        (PersistenceManager.put true "domain_data" "k1"
          [("f", PValue.i 1)] pmMock).2.1).1 = .ok (some [("f", PValue.i 1)]) ∧
    (PersistenceManager.get true "domain_data" "k1"
        (PersistenceManager.put true "domain_data" "k1" [("f", PValue.i 2)]
          (PersistenceManager.put true "domain_data" "k1"
            [("f", PValue.i 1)] pmMock).2.1).2.1).1 = .ok (some [("f", PValue.i 2)]) :=
  ⟨Or.inl rfl, put_get_roundtrip_overwrite "domain_data" "k1"
    [("f", PValue.i 1)] [("f", PValue.i 2)] pmMock (Or.inl rfl)⟩

/-- Claim C6: every single-step transition is one of those the state
machine admits (out of `Uninitialized`, `Live` staying or degrading to
`Mock`, `Mock` and `Failed` absorbing — never `Mock` to `Live`), and from
`Mock` any operation sequence stays in `Mock` with no attempt to reach
the real backend. -/
theorem transitions_one_directional_mock_absorbing :
    (∀ (op : PMOp) (m : PersistenceManager),
      allowedTransition m.mode ((stepPM op m).1.mode) = true) ∧
    (∀ (ops : List PMOp) (m : PersistenceManager), m.mode = PMState.Mock →
      (runOps ops m).1.mode = PMState.Mock ∧ (runOps ops m).2 = false) := by
  constructor
  · intro op m
    obtain ⟨mo, ms, bk, ck⟩ := m
    cases op with
    | initOp a o =>
        cases mo <;> cases a <;> cases o <;>
          simp [stepPM, PersistenceManager.initStep, allowedTransition]
    | putOp n c k r =>
        cases mo <;> cases n <;>
          simp [stepPM, PersistenceManager.put, allowedTransition]
    | getOp n c k =>
        cases mo <;> cases n <;>
          simp [stepPM, PersistenceManager.get, allowedTransition]
    | closeOp =>
        cases mo <;> simp [stepPM, PersistenceManager.close, allowedTransition]
  · intro ops
    induction ops with
    | nil =>
        intro m h
        simpa [runOps] using h
    | cons op rest ih =>
        intro m h
        have hs := mock_step_absorbing op m h
        have hr := ih (stepPM op m).1 hs.1
        simp [runOps, hs.1, hs.2, hr.1, hr.2]

/-- Witness for claim C6: after the degrade a put/get pair and even a
renewed initialization attempt keep the manager in `Mock` and never touch
the real backend. -/
theorem transitions_one_directional_mock_absorbing_witness :
    allowedTransition pmMock.mode
      ((stepPM (PMOp.putOp true "c" "k" [("f", PValue.b true)]) pmMock).1.mode) = true ∧
    pmMock.mode = PMState.Mock ∧
    (runOps [PMOp.putOp true "c" "k" [("f", PValue.b true)],
        PMOp.getOp true "c" "k",
        PMOp.initOp true LiveOutcome.success] pmMock).1.mode = PMState.Mock ∧
    (runOps [PMOp.putOp true "c" "k" [("f", PValue.b true)],
        PMOp.getOp true "c" "k",
        PMOp.initOp true LiveOutcome.success] pmMock).2 = false :=
  ⟨transitions_one_directional_mock_absorbing.1
      (PMOp.putOp true "c" "k" [("f", PValue.b true)]) pmMock, rfl,
   transitions_one_directional_mock_absorbing.2
     [PMOp.putOp true "c" "k" [("f", PValue.b true)],
      PMOp.getOp true "c" "k",
      PMOp.initOp true LiveOutcome.success] pmMock rfl⟩
